import Mathlib

/-!
# Verification of the domain-stats collection pipeline

A shallow embedding of the stat extraction and normalization pipeline of
`domain-stats.py`: value coercion (`clean_val`), recursive flattening
(`flatten`), measurement classification (`clean_measurement`) and the
per-cycle stat collector (`get_stats`).  Numeric values are modelled as
rationals (every value the pipeline produces is a finitely-represented
decimal); the external fetch collaborator is modelled as a pure function
from request paths to parsed JSON values.
-/

namespace DomainStats

/-- A parsed JSON value, as returned by the fetch collaborator. -/
inductive JVal where
  | null
  | bool (b : Bool)
  | num (x : Rat)
  | str (s : String)
  | arr (elems : List JVal)
  | obj (fields : List (String × JVal))
deriving Repr

/-- Python whitespace, as stripped by `float(str)`. -/
def isPyWs (c : Char) : Bool :=
  c = ' ' || c = '\t' || c = '\n' || c = '\x0d' || c = '\x0b' || c = '\x0c'

/-- Word characters of the (ASCII) regex class `\w`. -/
def isWordChar (c : Char) : Bool :=
  c.isAlphanum || c = '_'

/-- Value of a run of decimal digit characters. -/
def digitsToNat (ds : List Char) : Nat :=
  ds.foldl (fun n c => 10 * n + (c.toNat - '0'.toNat)) 0

/-- Exponent suffix of a float literal: a non-empty digit run, applied to
`base` with the given sign. -/
def expDigits (base : Rat) (sign : Int) (cs : List Char) : Option Rat :=
  if cs ≠ [] ∧ cs.all Char.isDigit then
    some (if sign = 1 then base * 10 ^ digitsToNat cs else base / 10 ^ digitsToNat cs)
  else none

/-- Optional `e`/`E` exponent part of a float literal. -/
def parseExp (base : Rat) (cs : List Char) : Option Rat :=
  match cs with
  | [] => some base
  | c :: rest =>
    if c = 'e' ∨ c = 'E' then
      match rest with
      | '+' :: r => expDigits base 1 r
      | '-' :: r => expDigits base (-1) r
      | r => expDigits base 1 r
    else none

/-- Mantissa (integer part, optional fraction) of a float literal,
followed by an optional exponent. -/
def parseMantissa (cs : List Char) : Option Rat :=
  let ip := cs.takeWhile Char.isDigit
  let rest := cs.dropWhile Char.isDigit
  match rest with
  | [] => if ip = [] then none else some (digitsToNat ip)
  | '.' :: rest2 =>
    let fp := rest2.takeWhile Char.isDigit
    let rest3 := rest2.dropWhile Char.isDigit
    if ip = [] ∧ fp = [] then none
    else parseExp ((digitsToNat ip : Rat) + (digitsToNat fp : Rat) / 10 ^ fp.length) rest3
  | _ => if ip = [] then none else parseExp (digitsToNat ip) rest

/-- Signed float literal. -/
def parseSigned (cs : List Char) : Option Rat :=
  match cs with
  | '+' :: rest => parseMantissa rest
  | '-' :: rest => (parseMantissa rest).map Neg.neg
  | _ => parseMantissa cs

/-- Python `float(s)` on a string: strip surrounding whitespace, then parse a
signed decimal literal with optional fraction and exponent.  (`inf`/`nan`
literals are outside the rational model and are not produced by the polled
endpoints.)  Returns `none` where Python raises `ValueError`. -/
def pyFloat (s : String) : Option Rat :=
  let cs := s.toList.dropWhile isPyWs
  let cs := (cs.reverse.dropWhile isPyWs).reverse
  parseSigned cs

/-- The regex `^(\d+) \w+$` of `clean_val` (a digit run, one literal space,
a non-empty word-character run), returning the captured digit group. -/
def matchNumUnit (s : String) : Option (List Char) :=
  let cs := s.toList
  let ds := cs.takeWhile Char.isDigit
  if ds = [] then none
  else
    match cs.dropWhile Char.isDigit with
    | ' ' :: tail => if tail ≠ [] ∧ tail.all isWordChar then some ds else none
    | _ => none

/-- `clean_val` of `domain-stats.py`: `float(val)` (numbers and booleans pass
through, strings are parsed as float literals); on `ValueError`, retry the
string against `^(\d+) \w+$` and return the numeric prefix.  `none` models the
`TypeError`/`ValueError` the function lets escape. -/
def clean_val : JVal → Option Rat
  | .num x => some x
  | .bool b => some (if b then 1 else 0)
  | .str s =>
    match pyFloat s with
    | some x => some x
    | none => (matchNumUnit s).map (fun ds => (digitsToNat ds : Rat))
  | _ => none

/-- `'.'.join((key, k)) if key else k` of `flatten`. -/
def joinKey (key k : String) : String :=
  if key = "" then k else key ++ "." ++ k

mutual
/-- `flatten` of `domain-stats.py`: recursively walk mappings joining keys
with dots; skip `None` leaves; coerce other leaves with `clean_val`, dropping
(with a logged warning) the ones that fail. -/
def flatten (key : String) : JVal → List (String × Rat)
  | .obj fields => flattenFields key fields
  | .null => []
  | v =>
    match clean_val v with
    | some x => [(key, x)]
    | none => []

/-- The `for k, v in val.items()` loop of `flatten`, in mapping order. -/
def flattenFields (key : String) : List (String × JVal) → List (String × Rat)
  | [] => []
  | (k, v) :: rest => flatten (joinKey key k) v ++ flattenFields key rest
end

/-- `measurement.replace(' ', '-')`: single-character replacement is a
character map. -/
def hyphenate (s : String) : String :=
  ⟨s.data.map fun c => if c = ' ' then '-' else c⟩

/-- `measurement.startswith('z_')`. -/
def startsWithZ (m : String) : Bool :=
  match m.toList with
  | 'z' :: '_' :: _ => true
  | _ => false

/-- Python `measurement.split('.')` on the character list: split on every
dot, keeping empty segments; the result is never empty. -/
def splitDots : List Char → List (List Char)
  | [] => [[]]
  | c :: rest =>
    match splitDots rest with
    | [] => [[]]
    | seg :: segs => if c = '.' then [] :: seg :: segs else (c :: seg) :: segs

/-- `clean_measurement` of `domain-stats.py`: hyphenate spaces; pass
non-`z_` names through; split recognized entity-scoped roots on `.`,
removing segment 1 (`val.pop(1)`) as the `uuid` tag.  `none` models the
`IndexError` `val.pop(1)` raises when there is no segment 1. -/
def clean_measurement (measurement : String) : Option (List (String × String) × String) :=
  let m := hyphenate measurement
  if startsWithZ m = false then some ([], m)
  else
    match (splitDots m.toList).map (fun l => String.mk l) with
    | [] => none
    | root :: rest =>
      if root = "z_avatars" ∨ root = "z_listeners" then
        match rest with
        | [] => none
        | uuid :: rest2 => some ([("uuid", uuid)], String.intercalate "." (root :: rest2))
      else some ([], m)

/-- Python dict lookup on the association list built by a comprehension:
later bindings win. -/
def dictLookup (d : List (String × JVal)) (k : String) : Option JVal :=
  d.foldl (fun acc kv => if kv.1 = k then some kv.2 else acc) none

/-- `n['key']` on a parsed JSON object. -/
def jGet (v : JVal) (key : String) : Option JVal :=
  match v with
  | .obj fields => dictLookup fields key
  | _ => none

/-- Text interpolated for the node uuid in `'nodes/%s.json' % nodes[k]['uuid']`;
the listings carry string uuids, for which `%s` is the string itself. -/
def uuidText : JVal → String
  | .str s => s
  | _ => ""

/-- `{n['type']: n for n in request('nodes.json')['nodes']}`: `none` models
the `KeyError`/`TypeError` raised when the listing is not an object with a
`nodes` array of objects carrying string `type` fields. -/
def buildNodes (v : JVal) : Option (List (String × JVal)) :=
  match jGet v "nodes" with
  | some (.arr ns) =>
    ns.mapM (fun n =>
      match jGet n "type" with
      | some (.str t) => some (t, n)
      | _ => none)
  | _ => none

/-- Records of one poll cycle: measurement path, value, tag mapping. -/
abbrev Record := String × Rat × List (String × String)

/-- Errors aborting a cycle inside `get_stats`. -/
inductive StatsError where
  | badListing
  | missingNode
deriving Repr, DecidableEq

/-- One iteration of the `for k in ('audio-mixer', 'avatar-mixer')` loop:
look up the node of type `k`, fetch its status document and flatten it,
attaching the two fixed tags.  `none` models the `KeyError` raised when the
node type, or its `uuid` field, is absent. -/
def nodeRecords (request : String → JVal) (domain_name k : String)
    (nodes : List (String × JVal)) : Option (List Record) :=
  match dictLookup nodes k with
  | none => none
  | some n =>
    match jGet n "uuid" with
    | none => none
    | some u =>
      some ((flatten "" (request ("nodes/" ++ uuidText u ++ ".json"))).map
        (fun pv => (pv.1, pv.2, [("domain_name", domain_name), ("assignment", k)])))

/-- `get_stats` of `domain-stats.py`.  The Python function is a generator
that can raise part-way through iteration, so the model returns the records
yielded before any failure together with the failure, if one occurred. -/
def get_stats (request : String → JVal) (domain_name : String) :
    List Record × Option StatsError :=
  match buildNodes (request "nodes.json") with
  | none => ([], some .badListing)
  | some nodes =>
    match nodeRecords request domain_name "audio-mixer" nodes with
    | none => ([], some .missingNode)
    | some r1 =>
      match nodeRecords request domain_name "avatar-mixer" nodes with
      | none => (r1, some .missingNode)
      | some r2 => (r1 ++ r2, none)

end DomainStats

namespace DomainStats

/-- `hyphenate` is idempotent: a second pass finds no spaces left. -/
theorem hyphenate_idem (s : String) : hyphenate (hyphenate s) = hyphenate s := by
  simp only [hyphenate, List.map_map]
  congr 1
  apply List.map_congr_left
  intro c _
  by_cases h : c = ' ' <;> simp [h, Function.comp]

/-- `splitDots` never returns the empty list. -/
theorem splitDots_ne_nil (cs : List Char) : splitDots cs ≠ [] := by
  induction cs with
  | nil => simp [splitDots]
  | cons c rest ih =>
    simp only [splitDots]
    cases h : splitDots rest with
    | nil => exact absurd h ih
    | cons seg segs =>
      by_cases hc : c = '.' <;> simp [hc]

end DomainStats

namespace DomainStats

/-- **C6**: flattening `{"a": {"b": 1, "c": "2 foo"}}` with an empty prefix
yields exactly `("a.b", 1.0)` then `("a.c", 2.0)`. -/
theorem flatten_two_level_example :
    flatten "" (.obj [("a", .obj [("b", .num 1), ("c", .str "2 foo")])]) =
      [("a.b", (1 : Rat)), ("a.c", (2 : Rat))] := by
  decide

/-- **C7**: flattening `{"a": None, "b": 5}` yields exactly `("b", 5.0)`;
the null leaf is silently omitted. -/
theorem flatten_null_leaf_example :
    flatten "" (.obj [("a", .null), ("b", .num 5)]) = [("b", (5 : Rat))] := by
  decide

/-- **C9**: `clean_measurement` replaces spaces with hyphens on the full text
before any prefix check or splitting (it factors through `hyphenate`), and
`classify("jitter buffer.max")` gives path `"jitter-buffer.max"` with no
extra tags. -/
theorem clean_measurement_hyphenates_first :
    (∀ m, clean_measurement m = clean_measurement (hyphenate m)) ∧
      clean_measurement "jitter buffer.max" = some ([], "jitter-buffer.max") := by
  constructor
  · intro m
    simp only [clean_measurement, hyphenate_idem]
  · decide

/-- **C10**: boolean leaves are coerced, not rejected: `clean_val` maps
`true` to `1.0` and `false` to `0.0`, and `flatten` emits one pair per
boolean leaf accordingly. -/
theorem clean_val_bool :
    (∀ key b, flatten key (.bool b) = [(key, if b then (1 : Rat) else 0)]) ∧
      clean_val (.bool true) = some 1 ∧ clean_val (.bool false) = some 0 := by
  refine ⟨fun key b => ?_, rfl, rfl⟩
  cases b <;> rfl

end DomainStats

namespace DomainStats

/-- **C1 counterexample**: on the single-segment input `"z_avatars"`, whose
first dot-segment is a recognized entity-scoped root, `clean_measurement`
reaches `val.pop(1)` on a one-element list and raises `IndexError`
(modelled as `none`), so the classifier is not total. -/
theorem clean_measurement_bare_root_fails :
    clean_measurement "z_avatars" = none := by
  decide

/-- **C1 (amended)**: `clean_measurement` returns a result on every input
path except those whose hyphenated text consists of exactly one dot-segment
equal to a recognized entity-scoped root (`z_avatars` or `z_listeners`),
where `val.pop(1)` raises `IndexError`. -/
theorem clean_measurement_total_unless_bare_root (m : String)
    (h : ∀ root, (splitDots (hyphenate m).toList).map (fun l => String.mk l) = [root] →
        root ≠ "z_avatars" ∧ root ≠ "z_listeners") :
    (clean_measurement m).isSome := by
  rw [clean_measurement]
  split
  · rfl
  · split
    · next heq =>
      exact absurd (List.map_eq_nil_iff.mp heq) (splitDots_ne_nil _)
    · next root rest heq =>
      split
      · next hroot =>
        cases rest with
        | nil =>
          rcases hroot with h1 | h1
          · exact absurd h1 (h root heq).1
          · exact absurd h1 (h root heq).2
        | cons uuid rest2 => rfl
      · rfl

/-- Witness for the amended C1 at the two-segment input `"z_avatars.count"`. -/
theorem clean_measurement_total_unless_bare_root_witness :
    (clean_measurement "z_avatars.count").isSome :=
  clean_measurement_total_unless_bare_root "z_avatars.count" (by
    intro root hr
    have hs : (splitDots (hyphenate "z_avatars.count").toList).map (fun l => String.mk l) =
        ["z_avatars", "count"] := by decide
    rw [hs] at hr
    simp at hr)

/-- **C2 counterexample**: `clean_measurement` is not idempotent on its own
output: classifying `"z_avatars.u.count"` rewrites it to `"z_avatars.count"`,
and a second application, far from being a no-op, extracts `"count"` as a
`uuid` tag and rewrites the path to `"z_avatars"`. -/
theorem clean_measurement_not_idempotent :
    clean_measurement "z_avatars.u.count" = some ([("uuid", "u")], "z_avatars.count") ∧
      clean_measurement "z_avatars.count" = some ([("uuid", "count")], "z_avatars") := by
  constructor <;> decide

/-- **C2 (amended)**: `clean_measurement` is a no-op on its own output
whenever the first application passed the path through without extracting a
tag; rewritten outputs that still begin with a recognized root are rewritten
again (or fail). -/
theorem clean_measurement_idem_on_passthrough (m p : String)
    (h : clean_measurement m = some ([], p)) :
    clean_measurement p = some ([], p) := by
  rw [clean_measurement] at h
  split at h
  · next hz =>
    rw [Option.some_inj] at h
    have hp : hyphenate m = p := by
      have := congrArg Prod.snd h
      simpa using this
    subst hp
    rw [clean_measurement]
    simp only [hyphenate_idem]
    rw [if_pos hz]
  · next hz =>
    split at h
    · next => simp at h
    · next root rest heq =>
      split at h
      · next hroot =>
        split at h
        · simp at h
        · simp at h
      · next hroot =>
        rw [Option.some_inj] at h
        have hp : hyphenate m = p := by
          have := congrArg Prod.snd h
          simpa using this
        subst hp
        rw [clean_measurement]
        simp only [hyphenate_idem]
        rw [if_neg hz, heq]
        simp [hroot]

end DomainStats

namespace DomainStats

/-- Take/drop of a run satisfying `p` followed by an element refuting `p`. -/
theorem takeWhile_all_append {α : Type} (p : α → Bool) (xs : List α) (y : α) (ys : List α)
    (hx : xs.all p = true) (hy : p y = false) :
    (xs ++ y :: ys).takeWhile p = xs ∧ (xs ++ y :: ys).dropWhile p = y :: ys := by
  induction xs with
  | nil => simp [List.takeWhile_cons, List.dropWhile_cons, hy]
  | cons a as ih =>
    rw [List.all_cons, Bool.and_eq_true] at hx
    have h2 := ih hx.2
    simp [List.takeWhile_cons, List.dropWhile_cons, hx.1, h2.1, h2.2]

/-- **C4 counterexample**: the regex of `clean_val` is `^(\d+) \w+$` with a
single literal space, not `\s+`: on `"0\tusecs"` (tab separator) the match
fails and `clean_val` re-raises `ValueError` (modelled as `none`) instead of
returning `0.0`. -/
theorem clean_val_tab_separator_fails :
    clean_val (.str "0\tusecs") = none := by
  decide

/-- **C4 (amended)**: for every string that is not directly parsable as a
floating-point literal but consists of a non-empty digit run, exactly one
space, and a non-empty word-character run, `clean_val` succeeds and returns
the numeric prefix. -/
theorem clean_val_digits_space_word (ds ws : List Char)
    (hd : ds ≠ [] ∧ ds.all Char.isDigit = true)
    (hw : ws ≠ [] ∧ ws.all isWordChar = true)
    (hp : pyFloat (String.mk (ds ++ ' ' :: ws)) = none) :
    clean_val (.str (String.mk (ds ++ ' ' :: ws))) = some (digitsToNat ds : Rat) := by
  have hsp : Char.isDigit ' ' = false := rfl
  have hsplit := takeWhile_all_append Char.isDigit ds ' ' ws hd.2 hsp
  have hcs : (String.mk (ds ++ ' ' :: ws)).toList = ds ++ ' ' :: ws := rfl
  simp only [clean_val, hp, matchNumUnit, hcs, hsplit.1, hsplit.2, if_neg hd.1]
  simp [hw.1, hw.2]

/-- Witness for the amended C4 at the input `"2 usecs"`. -/
theorem clean_val_digits_space_word_witness :
    clean_val (.str (String.mk (['2'] ++ ' ' :: "usecs".toList))) =
      some (digitsToNat ['2'] : Rat) :=
  clean_val_digits_space_word ['2'] "usecs".toList ⟨by decide, by decide⟩
    ⟨by decide, by decide⟩ (by decide)

end DomainStats

namespace DomainStats

/-- A dot-joined key under a non-empty prefix is non-empty. -/
theorem joinKey_ne_empty (key k : String) (h : ¬ key = "") : ¬ joinKey key k = "" := by
  rw [joinKey, if_neg h]
  intro hc
  have hl := congrArg String.length hc
  simp [String.length_append] at hl
  exact absurd hl.1.2 (by decide)

mutual
/-- Under a non-empty key prefix, every pair `flatten` yields has a
non-empty path. -/
theorem flatten_all_ne_empty (key : String) (hkey : ¬ key = "") :
    ∀ v : JVal, (flatten key v).all (fun pv => !(pv.1 == "")) = true
  | .null => by simp [flatten]
  | .bool b => by
    simp only [flatten]
    cases clean_val (.bool b) <;> simp [hkey]
  | .num x => by
    simp only [flatten]
    cases clean_val (.num x) <;> simp [hkey]
  | .str s => by
    simp only [flatten]
    cases clean_val (.str s) <;> simp [hkey]
  | .arr es => by
    simp only [flatten]
    cases clean_val (.arr es) <;> simp [hkey]
  | .obj fields => by
    simp only [flatten]
    exact flattenFields_all_ne_empty key fields (fun kv _ => joinKey_ne_empty key kv.1 hkey)

/-- Under joined keys that are all non-empty, every pair `flattenFields`
yields has a non-empty path. -/
theorem flattenFields_all_ne_empty (key : String) :
    ∀ fields : List (String × JVal), (∀ kv ∈ fields, ¬ joinKey key kv.1 = "") →
      (flattenFields key fields).all (fun pv => !(pv.1 == "")) = true
  | [], _ => by simp [flattenFields]
  | (k, v) :: rest, h => by
    simp only [flattenFields, List.all_append, Bool.and_eq_true]
    refine ⟨?_, ?_⟩
    · exact flatten_all_ne_empty (joinKey key k) (h (k, v) (by simp)) v
    · exact flattenFields_all_ne_empty key rest (fun kv hm => h kv (by simp [hm]))
end

/-- **C5 counterexample**: flattening a document that is itself a coercible
scalar yields a pair whose path is the empty string. -/
theorem flatten_scalar_root_empty_path :
    flatten "" (.num 5) = [("", (5 : Rat))] := by
  decide

/-- **C5 (amended)**: for every document that is a mapping whose top-level
keys are non-empty, `flatten` with the empty starting prefix yields only
pairs with non-empty paths; a top-level coercible scalar, by contrast, is
emitted under the empty path. -/
theorem flatten_obj_root_paths_nonempty (fields : List (String × JVal))
    (hk : fields.all (fun kv => !(kv.1 == "")) = true) :
    (flatten "" (.obj fields)).all (fun pv => !(pv.1 == "")) = true := by
  simp only [flatten]
  apply flattenFields_all_ne_empty
  intro kv hm
  rw [joinKey, if_pos rfl]
  rw [List.all_eq_true] at hk
  have hkv := hk kv hm
  simpa using hkv

/-- Witness for the amended C5 on the mapping `{"a": 1}`. -/
theorem flatten_obj_root_paths_nonempty_witness :
    (flatten "" (.obj [("a", .num 1)])).all (fun pv => !(pv.1 == "")) = true :=
  flatten_obj_root_paths_nonempty [("a", .num 1)] (by decide)

end DomainStats

namespace DomainStats

/-- Status listing node of type `audio-mixer` with uuid `au1`. -/
def exAudioNode : JVal := .obj [("type", .str "audio-mixer"), ("uuid", .str "au1")]

/-- Status listing node of type `avatar-mixer` with uuid `av1`. -/
def exAvatarNode : JVal := .obj [("type", .str "avatar-mixer"), ("uuid", .str "av1")]

/-- Example fetch collaborator whose listing carries only the audio-mixer. -/
def exReqAudioOnly : String → JVal := fun path =>
  if path = "nodes.json" then .obj [("nodes", .arr [exAudioNode])]
  else if path = "nodes/au1.json" then .obj [("cpu", .num 7)]
  else .null

/-- The type map built from the audio-only listing. -/
def exNodesAudioOnly : List (String × JVal) := [("audio-mixer", exAudioNode)]

/-- Example fetch collaborator whose listing carries both required types. -/
def exReqBoth : String → JVal := fun path =>
  if path = "nodes.json" then .obj [("nodes", .arr [exAudioNode, exAvatarNode])]
  else if path = "nodes/au1.json" then .obj [("mix", .obj [("time", .num 3)])]
  else if path = "nodes/av1.json" then .obj [("count", .num 2)]
  else .null

/-- The type map built from the two-node listing. -/
def exNodesBoth : List (String × JVal) :=
  [("audio-mixer", exAudioNode), ("avatar-mixer", exAvatarNode)]

/-- A required node type missing from the type map yields no records for it. -/
theorem nodeRecords_of_lookup_none (request : String → JVal) (dn k : String)
    (nodes : List (String × JVal)) (h : dictLookup nodes k = none) :
    nodeRecords request dn k nodes = none := by
  simp [nodeRecords, h]

/-- **C3 counterexample**: with the audio-mixer present (one numeric field in
its document) and the avatar-mixer absent, `get_stats` yields one record
before failing with `MissingNode` — not zero records. -/
theorem get_stats_yields_before_missing_second :
    get_stats exReqAudioOnly "d" =
      ([("cpu", (7 : Rat), [("domain_name", "d"), ("assignment", "audio-mixer")])],
        some StatsError.missingNode) := by
  decide

/-- **C3 (amended)**: a listing missing either required node type makes
`get_stats` fail with `MissingNode`; it yields zero records when the
audio-mixer type is missing, but when only the avatar-mixer type is missing
it first yields every record of the audio-mixer node. -/
theorem get_stats_missing_node (request : String → JVal) (domain_name : String)
    (nodes : List (String × JVal))
    (hn : buildNodes (request "nodes.json") = some nodes)
    (hmiss : dictLookup nodes "audio-mixer" = none ∨ dictLookup nodes "avatar-mixer" = none) :
    (get_stats request domain_name).2 = some StatsError.missingNode ∧
      (dictLookup nodes "audio-mixer" = none → (get_stats request domain_name).1 = []) ∧
      (dictLookup nodes "avatar-mixer" = none →
        (get_stats request domain_name).1 =
          (nodeRecords request domain_name "audio-mixer" nodes).getD []) := by
  rcases hmiss with hm | hm
  · have h1 := nodeRecords_of_lookup_none request domain_name "audio-mixer" nodes hm
    simp [get_stats, hn, h1]
  · have h2 := nodeRecords_of_lookup_none request domain_name "avatar-mixer" nodes hm
    cases h1 : nodeRecords request domain_name "audio-mixer" nodes with
    | none =>
      refine ⟨?_, ?_, ?_⟩ <;> simp [get_stats, hn, h1]
    | some r1 =>
      have haudio : dictLookup nodes "audio-mixer" ≠ none := by
        intro hc
        rw [nodeRecords_of_lookup_none request domain_name "audio-mixer" nodes hc] at h1
        exact Option.noConfusion h1
      refine ⟨?_, ?_, ?_⟩ <;> simp [get_stats, hn, h1, h2, haudio]

/-- Witness for the amended C3 on the audio-only listing. -/
theorem get_stats_missing_node_witness :
    (get_stats exReqAudioOnly "d").2 = some StatsError.missingNode ∧
      (dictLookup exNodesAudioOnly "audio-mixer" = none →
        (get_stats exReqAudioOnly "d").1 = []) ∧
      (dictLookup exNodesAudioOnly "avatar-mixer" = none →
        (get_stats exReqAudioOnly "d").1 =
          (nodeRecords exReqAudioOnly "d" "audio-mixer" exNodesAudioOnly).getD []) :=
  get_stats_missing_node exReqAudioOnly "d" exNodesAudioOnly rfl (Or.inr rfl)

/-- **C8**: with both required node types present (each with a `uuid`), the
output of `get_stats` is exactly the audio-mixer document's records in
flatten order followed by the avatar-mixer document's records in flatten
order, each tagged with the domain name and its assignment. -/
theorem get_stats_order (request : String → JVal) (domain_name : String)
    (nodes : List (String × JVal)) (na nv ua uv : JVal)
    (hn : buildNodes (request "nodes.json") = some nodes)
    (ha : dictLookup nodes "audio-mixer" = some na)
    (hv : dictLookup nodes "avatar-mixer" = some nv)
    (hua : jGet na "uuid" = some ua)
    (huv : jGet nv "uuid" = some uv) :
    get_stats request domain_name =
      ((flatten "" (request ("nodes/" ++ uuidText ua ++ ".json"))).map
          (fun pv => (pv.1, pv.2, [("domain_name", domain_name), ("assignment", "audio-mixer")])) ++
        (flatten "" (request ("nodes/" ++ uuidText uv ++ ".json"))).map
          (fun pv => (pv.1, pv.2, [("domain_name", domain_name), ("assignment", "avatar-mixer")])),
        none) := by
  simp [get_stats, nodeRecords, hn, ha, hv, hua, huv]

/-- Witness for C8 on the two-node listing. -/
theorem get_stats_order_witness :
    get_stats exReqBoth "d" =
      ((flatten "" (exReqBoth ("nodes/" ++ uuidText (.str "au1") ++ ".json"))).map
          (fun pv => (pv.1, pv.2, [("domain_name", "d"), ("assignment", "audio-mixer")])) ++
        (flatten "" (exReqBoth ("nodes/" ++ uuidText (.str "av1") ++ ".json"))).map
          (fun pv => (pv.1, pv.2, [("domain_name", "d"), ("assignment", "avatar-mixer")])),
        none) :=
  get_stats_order exReqBoth "d" exNodesBoth exAudioNode exAvatarNode (.str "au1") (.str "av1")
    rfl rfl rfl rfl rfl

end DomainStats

namespace DomainStats

/-- Witness for the amended C2 at the pass-through path `"foo.bar"`. -/
theorem clean_measurement_idem_on_passthrough_witness :
    clean_measurement "foo.bar" = some ([], "foo.bar") :=
  clean_measurement_idem_on_passthrough "foo.bar" "foo.bar" (by decide)

end DomainStats
